import Mathlib

/-!
Verification of the MGNREGA Tamil Nadu dashboard front end.

The embedded program is the data pipeline of `App.jsx`:
`toNumber`, `fetchForYear`, the per-year fetch loop of `fetchData`,
the normalize → filter → group → district-filter → sort pipeline,
and the insight computation.  JavaScript values coming out of
`res.json()` are modelled by the inductive `JsonVal` (JSON values,
plus `undefined` for absent object fields); JS numbers are modelled as
rationals (the values reachable here are produced by JSON parsing and
by arithmetic on parsed numbers, so NaN/Infinity never enter the
pipeline, and `Number(string)` is modelled on its finite decimal
fragment).
-/

/-- A JavaScript value as produced by `res.json()`, plus `undefined` for the
result of reading an absent object property. -/
inductive JsonVal where
  | jnull : JsonVal
  | undefined : JsonVal
  | num : ℚ → JsonVal
  | str : String → JsonVal
  | bool : Bool → JsonVal
  | arr : List JsonVal → JsonVal
  | obj : List (String × JsonVal) → JsonVal

/-- JavaScript truthiness for the modelled values. -/
def truthy : JsonVal → Bool
  | .jnull => false
  | .undefined => false
  | .num q => q ≠ 0
  | .str s => s ≠ ""
  | .bool b => b
  | .arr _ => true
  | .obj _ => true

/-- JavaScript `a || b`: returns `a` when truthy, otherwise `b`. -/
def jsOr (a b : JsonVal) : JsonVal :=
  if truthy a then a else b

/-- JavaScript property read `v[k]` on the modelled values: object field
lookup, `undefined` otherwise. -/
def jsGet (v : JsonVal) (k : String) : JsonVal :=
  match v with
  | .obj fields => (fields.lookup k).getD .undefined
  | _ => .undefined

/-- Decimal string for a rational; agrees with JavaScript number-to-string
on integers (the only values the pipeline can feed through `String(...)`
after JSON parsing of realistic payloads). -/
def ratToString (q : ℚ) : String :=
  if q.den = 1 then
    (if q.num < 0 then "-" ++ toString q.num.natAbs else toString q.num.natAbs)
  else toString q.num ++ "/" ++ toString q.den

mutual
/-- JavaScript `String(v)` on the modelled values. -/
def jsToString : JsonVal → String
  | .jnull => "null"
  | .undefined => "undefined"
  | .num q => ratToString q
  | .str s => s
  | .bool b => if b then "true" else "false"
  | .arr xs => String.intercalate "," (jsArrParts xs)
  | .obj _ => "[object Object]"

/-- Elements of an array joined by `Array.prototype.toString`: `null` and
`undefined` render as the empty string. -/
def jsArrParts : List JsonVal → List String
  | [] => []
  | JsonVal.jnull :: xs => "" :: jsArrParts xs
  | JsonVal.undefined :: xs => "" :: jsArrParts xs
  | x :: xs => jsToString x :: jsArrParts xs
end

/-- JavaScript `s.replace(/,/g, "")`: remove every comma. -/
def stripCommas (s : String) : String :=
  ⟨s.data.filter (fun c => c ≠ ',')⟩

/-- Character class trimmed by JavaScript `String.prototype.trim`. -/
def jsIsSpace (c : Char) : Bool :=
  c = ' ' ∨ c = '\t' ∨ c = '\n' ∨ c = '\r'

/-- JavaScript `s.trim()`: drop whitespace from both ends. -/
def jsTrim (s : String) : String :=
  ⟨((s.data.dropWhile jsIsSpace).reverse.dropWhile jsIsSpace).reverse⟩

/-- JavaScript `s.toUpperCase()` on the ASCII range. -/
def jsToUpper (s : String) : String :=
  ⟨s.data.map Char.toUpper⟩

/-- Numeric value of a list of decimal digit characters. -/
def digitsVal (cs : List Char) : Nat :=
  cs.foldl (fun n c => 10 * n + (c.toNat - '0'.toNat)) 0

/-- Value of a fractional digit block `.d₁…dₙ`. -/
def fracVal (cs : List Char) : ℚ :=
  (digitsVal cs : ℚ) / (10 : ℚ) ^ cs.length

/-- Scale by a decimal exponent; `sign` true means a negative exponent. -/
def applyExp (q : ℚ) (sign : Bool) (e : Nat) : ℚ :=
  if sign then q / (10 : ℚ) ^ e else q * (10 : ℚ) ^ e

/-- Parse the exponent suffix after `e`/`E` of a JS number literal. -/
def parseExpPart (q : ℚ) (cs : List Char) : Option ℚ :=
  let (sign, cs2) :=
    match cs with
    | '+' :: r => (false, r)
    | '-' :: r => (true, r)
    | r => (false, r)
  let ds := cs2.takeWhile Char.isDigit
  let rest := cs2.dropWhile Char.isDigit
  if ds = [] ∨ rest ≠ [] then none else some (applyExp q sign (digitsVal ds))

/-- Parse an unsigned JS decimal literal `digits [. digits] [e exp]`. -/
def parseUnsigned (cs : List Char) : Option ℚ :=
  let intPart := cs.takeWhile Char.isDigit
  let rest := cs.dropWhile Char.isDigit
  match rest with
  | [] => if intPart = [] then none else some (digitsVal intPart)
  | '.' :: rest2 =>
    let fracPart := rest2.takeWhile Char.isDigit
    let rest3 := rest2.dropWhile Char.isDigit
    if intPart = [] ∧ fracPart = [] then none
    else
      match rest3 with
      | [] => some ((digitsVal intPart : ℚ) + fracVal fracPart)
      | c :: rest4 =>
        if c = 'e' ∨ c = 'E' then
          parseExpPart ((digitsVal intPart : ℚ) + fracVal fracPart) rest4
        else none
  | c :: rest2 =>
    if (c = 'e' ∨ c = 'E') ∧ intPart ≠ [] then parseExpPart (digitsVal intPart) rest2
    else none

/-- JavaScript `Number(string)` on its finite decimal fragment: trims
whitespace, the empty string is `0`, otherwise an optionally signed
decimal literal; `none` models NaN (non-numeric input). -/
def jsParseNumber (s : String) : Option ℚ :=
  let t := jsTrim s
  if t = "" then some 0
  else
    match t.data with
    | '+' :: r => parseUnsigned r
    | '-' :: r => (parseUnsigned r).map (fun q => -q)
    | r => parseUnsigned r

/-- Source `toNumber` (App.jsx lines 28-34): null/undefined give 0, a
number passes through, anything else is stringified, commas removed,
trimmed, and parsed, with 0 replacing a NaN parse. -/
def toNumber : JsonVal → ℚ
  | .jnull => 0
  | .undefined => 0
  | .num q => q
  | v =>
    let cleaned := jsTrim (stripCommas (jsToString v))
    match jsParseNumber cleaned with
    | some q => q
    | none => 0

example : toNumber (.str "12,345") = 12345 := by decide
example : toNumber (.str "N/A") = 0 := by decide
example : toNumber (.str " 1,000 ") = 1000 := by decide
example : toNumber .jnull = 0 := by decide
example : toNumber (.str "1.5e2") = 150 := by
  simp +decide [toNumber, jsToString, stripCommas, jsTrim, jsIsSpace, jsParseNumber,
    parseUnsigned, parseExpPart, digitsVal, fracVal, applyExp]
  norm_num

/-- The year selector list of App.jsx (`YEARS`), newest first after the
virtual `"All"` entry. -/
def YEARS : List String :=
  ["All", "2024-2025", "2023-2024", "2022-2023", "2021-2022",
   "2020-2021", "2019-2020", "2018-2019"]

/-- Shape of a normalized (and of an aggregated) record, as built in
`fetchData`: canonical district key, display name, three carried-over
descriptive fields, and seven numeric measures. -/
structure NormalizedRecord where
  district_name : String
  district_display : String
  state_name : JsonVal
  fin_year : JsonVal
  month : JsonVal
  Approved_Labour_Budget : ℚ
  Average_Wage_rate_per_day_per_person : ℚ
  Average_days_of_employment_provided_per_Household : ℚ
  Total_Households_Worked : ℚ
  Total_Individuals_Worked : ℚ
  Total_Exp : ℚ
  Wages : ℚ

/-- Source normalization step (App.jsx lines 109-126): district name from
`district_name` or `District` with `""` fallback, stringified, trimmed and
uppercased for the key; seven measures through `toNumber`. -/
def normalizeRow (stateName : String) (r : JsonVal) : NormalizedRecord :=
  let district_raw := jsOr (jsOr (jsGet r "district_name") (jsGet r "District")) (.str "")
  let district_clean := jsTrim (jsToString district_raw)
  { district_name := jsToUpper district_clean
    district_display := district_clean
    state_name := jsOr (jsGet r "state_name") (.str stateName)
    fin_year := jsOr (jsGet r "fin_year") (.str "—")
    month := jsOr (jsGet r "month") (.str "—")
    Approved_Labour_Budget := toNumber (jsGet r "Approved_Labour_Budget")
    Average_Wage_rate_per_day_per_person :=
      toNumber (jsGet r "Average_Wage_rate_per_day_per_person")
    Average_days_of_employment_provided_per_Household :=
      toNumber (jsGet r "Average_days_of_employment_provided_per_Household")
    Total_Households_Worked := toNumber (jsGet r "Total_Households_Worked")
    Total_Individuals_Worked := toNumber (jsGet r "Total_Individuals_Worked")
    Total_Exp := toNumber (jsGet r "Total_Exp")
    Wages := toNumber (jsGet r "Wages") }

/-- Accumulation step of the group-by reduce (App.jsx lines 139-145): add
each of the seven measures of `cur` into the running aggregate `a`. -/
def addMeasures (a cur : NormalizedRecord) : NormalizedRecord :=
  { a with
    Approved_Labour_Budget := a.Approved_Labour_Budget + cur.Approved_Labour_Budget
    Average_Wage_rate_per_day_per_person :=
      a.Average_Wage_rate_per_day_per_person + cur.Average_Wage_rate_per_day_per_person
    Average_days_of_employment_provided_per_Household :=
      a.Average_days_of_employment_provided_per_Household +
        cur.Average_days_of_employment_provided_per_Household
    Total_Households_Worked := a.Total_Households_Worked + cur.Total_Households_Worked
    Total_Individuals_Worked := a.Total_Individuals_Worked + cur.Total_Individuals_Worked
    Total_Exp := a.Total_Exp + cur.Total_Exp
    Wages := a.Wages + cur.Wages }

/-- One step of `filtered.reduce(...)` (App.jsx lines 134-148) on the
accumulator object, represented as its value list in insertion order:
if an entry with the same district key exists, fold `cur` into it,
otherwise append a copy of `cur` at the end. -/
def insertGrouped : List NormalizedRecord → NormalizedRecord → List NormalizedRecord
  | [], cur => [cur]
  | v :: rest, cur =>
    if v.district_name = cur.district_name then addMeasures v cur :: rest
    else v :: insertGrouped rest cur

/-- The whole group-by-district reduce; the result list models
`Object.values(grouped)` in key insertion order. -/
def groupRows (rows : List NormalizedRecord) : List NormalizedRecord :=
  rows.foldl insertGrouped []

/-- JavaScript `s.includes(pat)`: substring containment. -/
def strContains (s pat : String) : Bool :=
  s.data.tails.any (fun t => pat.data.isPrefixOf t)

/-- The `filtered` list of `fetchData` (App.jsx lines 109-131): rows
normalized, then rows with an empty district key dropped. -/
def validRows (stateName : String) (allRows : List JsonVal) : List NormalizedRecord :=
  (allRows.map (normalizeRow stateName)).filter (fun x => x.district_name ≠ "")

/-- `Object.values(grouped)` (App.jsx line 150): the per-district
aggregates in key insertion order. -/
def groupedArray (stateName : String) (allRows : List JsonVal) : List NormalizedRecord :=
  groupRows (validRows stateName allRows)

/-- The visible district filter (App.jsx lines 153-158): when the filter
text is non-empty after trimming, keep aggregates whose key contains its
trimmed uppercase form. -/
def districtFiltered (stateName districtFilter : String) (allRows : List JsonVal) :
    List NormalizedRecord :=
  if districtFilter ≠ "" ∧ 0 < (jsTrim districtFilter).length then
    (groupedArray stateName allRows).filter
      (fun d => strContains d.district_name (jsToUpper (jsTrim districtFilter)))
  else groupedArray stateName allRows

/-- The aggregation pipeline of `fetchData` (App.jsx lines 109-161):
normalize, drop empty district keys, group by district, apply the visible
district filter, and sort by total expenditure descending. -/
def aggregatePipeline (stateName districtFilter : String) (allRows : List JsonVal) :
    List NormalizedRecord :=
  (districtFiltered stateName districtFilter allRows).mergeSort
    (fun a b => decide (b.Total_Exp ≤ a.Total_Exp))

/-- JavaScript `Math.round` on the modelled (rational) numbers:
round half toward positive infinity. -/
def jsRound (q : ℚ) : ℤ := ⌊q + 1 / 2⌋

/-- The `insights` record set by `fetchData` (App.jsx lines 47-54 and
185-192). -/
structure InsightSummary where
  totalHouseholds : ℚ
  totalPersondays : ℚ
  totalExpenditure : ℚ
  avgHouseholds : ℚ
  topDistrict : String
  lowDistrict : String

/-- Insight computation over the final sorted array (App.jsx lines
167-192); `totalPersondays` is set to the literal `0` there. -/
def computeInsights (finalArray : List NormalizedRecord) : InsightSummary :=
  let totalHouseholds :=
    (finalArray.map (fun x => toNumber (.num x.Total_Households_Worked))).sum
  let totalExp := (finalArray.map (fun x => toNumber (.num x.Total_Exp))).sum
  let avgHouseholds : ℚ :=
    if finalArray.length ≠ 0 then (jsRound (totalHouseholds / finalArray.length) : ℚ) else 0
  let topDistrict :=
    match finalArray with
    | [] => "N/A"
    | x :: _ => x.district_display
  let lowDistrict :=
    match finalArray.getLast? with
    | none => "N/A"
    | some x => x.district_display
  { totalHouseholds := totalHouseholds
    totalPersondays := 0
    totalExpenditure := totalExp
    avgHouseholds := avgHouseholds
    topDistrict := topDistrict
    lowDistrict := lowDistrict }

/-- Query parameters assembled per request by `fetchForYear` (App.jsx
lines 71-75): each appended only when its JS condition is truthy. -/
structure Query where
  state_name : Option String
  fin_year : Option String
  district_name : Option String

/-- Build the query string parameters for one per-year request. -/
def buildQuery (stateName districtOverride fin_year : String) : Query :=
  { state_name := if stateName ≠ "" then some (jsToUpper stateName) else none
    fin_year := if fin_year ≠ "" ∧ fin_year ≠ "All" then some fin_year else none
    district_name :=
      if districtOverride ≠ "" then some (jsToUpper districtOverride) else none }

/-- Outcome of `fetch` plus `res.json()` for one request: the HTTP ok
flag, and the parsed body (`.error` when `res.json()` rejects). -/
structure HttpResponse where
  ok : Bool
  body : Except String JsonVal

/-- The network as seen by one fetch cycle: result of `fetch` per query;
`.error` models a rejected `fetch` (network failure). -/
def Backend := Query → Except String HttpResponse

/-- Source `fetchForYear` (App.jsx lines 70-84): throw on a rejected
fetch or non-ok status, otherwise return `json?.data || json || []`. -/
def fetchForYear (backend : Backend) (stateName districtOverride fin_year : String) :
    Except String JsonVal :=
  match backend (buildQuery stateName districtOverride fin_year) with
  | .error e => .error e
  | .ok res =>
    if !res.ok then .error "Fetch failed"
    else
      match res.body with
      | .error e => .error e
      | .ok json => .ok (jsOr (jsGet json "data") (jsOr json (.arr [])))

/-- Effect of `if (rows && rows.length) allRows.push(...rows)` (App.jsx
lines 94 and 102): the rows appended for one fetched value.  An array
contributes its elements when non-empty, a non-empty string spreads into
its characters, everything else (no truthy `length` property) contributes
nothing. -/
def rowsToAppend (rows : JsonVal) : List JsonVal :=
  match rows with
  | .arr xs => if xs.length ≠ 0 then xs else []
  | .str s => if s ≠ "" then s.data.map (fun c => .str ⟨[c]⟩) else []
  | _ => []

/-- The all-years loop (App.jsx lines 88-98): iterate the seven concrete
years in order, appending each successful year's rows and skipping on a
caught per-year failure. -/
def allYearsRows (backend : Backend) (stateName districtOverride : String) : List JsonVal :=
  (YEARS.filter (fun y => y ≠ "All")).foldl
    (fun acc y =>
      match fetchForYear backend stateName districtOverride y with
      | .ok rows => acc ++ rowsToAppend rows
      | .error _ => acc)
    []

/-- The data-producing part of one `fetchData` run: the collected raw
rows, the final aggregate array, and the insights; `.error` when the
single-year fetch throws (all-years mode never throws here). -/
def fetchDataResult (backend : Backend)
    (stateName yearOverride districtFilter districtOverride : String) :
    Except String (List JsonVal × List NormalizedRecord × InsightSummary) :=
  let allRowsE : Except String (List JsonVal) :=
    if yearOverride = "All" then .ok (allYearsRows backend stateName districtOverride)
    else (fetchForYear backend stateName districtOverride yearOverride).map rowsToAppend
  match allRowsE with
  | .error e => .error e
  | .ok allRows =>
    let finalArray := aggregatePipeline stateName districtFilter allRows
    .ok (allRows, finalArray, computeInsights finalArray)

/-- The component state touched by one fetch cycle. -/
structure AppState where
  data : List NormalizedRecord
  rawRecords : List JsonVal
  insights : InsightSummary
  loading : Bool

/-- One full `fetchData` cycle (App.jsx lines 62-198): set the loading
flag, run the pipeline, on success replace rawRecords, data and insights;
on error the catch only logs; the finally clause clears loading in both
cases. -/
def fetchDataCycle (backend : Backend)
    (stateName yearOverride districtFilter districtOverride : String)
    (st : AppState) : AppState :=
  match fetchDataResult backend stateName yearOverride districtFilter districtOverride with
  | .ok (raw, fin, ins) =>
    { data := fin, rawRecords := raw, insights := ins, loading := false }
  | .error _ => { st with loading := false }

/-- First aggregate carrying the given district key, used to state the
group-by characterization. -/
def findGrouped (l : List NormalizedRecord) (k : String) : Option NormalizedRecord :=
  l.find? (fun v => decide (v.district_name = k))

theorem addMeasures_district_name (a b : NormalizedRecord) :
    (addMeasures a b).district_name = a.district_name := rfl

theorem findGrouped_insertGrouped (acc : List NormalizedRecord) (cur : NormalizedRecord)
    (k : String) :
    findGrouped (insertGrouped acc cur) k =
      if cur.district_name = k then
        match findGrouped acc k with
        | some v => some (addMeasures v cur)
        | none => some cur
      else findGrouped acc k := by
  induction acc with
  | nil =>
    by_cases h : cur.district_name = k <;>
      simp [findGrouped, insertGrouped, List.find?, h]
  | cons v rest ih =>
    by_cases hv : v.district_name = cur.district_name
    · by_cases hk : cur.district_name = k
      · have hvk : v.district_name = k := hv.trans hk
        simp [insertGrouped, hv, findGrouped, List.find?_cons, addMeasures_district_name,
          hvk, hk]
      · have hvk : v.district_name ≠ k := fun h => hk (hv ▸ h)
        simp [insertGrouped, hv, findGrouped, List.find?_cons, addMeasures_district_name,
          hvk, hk]
    · by_cases hvk : v.district_name = k
      · have hk : cur.district_name ≠ k := fun h => hv (by rw [hvk, h])
        have hk' : k ≠ cur.district_name := fun h => hk h.symm
        simp [insertGrouped, hv, findGrouped, List.find?_cons, hvk, hk, hk']
      · simp only [findGrouped, insertGrouped, if_neg hv, List.find?_cons,
          decide_eq_true_eq, hvk, decide_False] at ih ⊢
        simpa [hvk] using ih

/-- Measure of an optional aggregate, 0 when absent. -/
def optMeasure (f : NormalizedRecord → ℚ) : Option NormalizedRecord → ℚ
  | some v => f v
  | none => 0

theorem foldl_insertGrouped_isSome (rows : List NormalizedRecord)
    (acc : List NormalizedRecord) (k : String) :
    (findGrouped (rows.foldl insertGrouped acc) k).isSome =
      ((findGrouped acc k).isSome || rows.any (fun r => decide (r.district_name = k))) := by
  induction rows generalizing acc with
  | nil => simp
  | cons r rest ih =>
    rw [List.foldl_cons, ih, findGrouped_insertGrouped]
    by_cases hr : r.district_name = k
    · cases hacc : findGrouped acc k <;> simp [hacc, hr]
    · simp [hr, Bool.or_assoc]

theorem foldl_insertGrouped_measure (f : NormalizedRecord → ℚ)
    (hf : ∀ a b, f (addMeasures a b) = f a + f b)
    (rows : List NormalizedRecord) (acc : List NormalizedRecord) (k : String) :
    optMeasure f (findGrouped (rows.foldl insertGrouped acc) k) =
      optMeasure f (findGrouped acc k) +
        ((rows.filter (fun r => decide (r.district_name = k))).map f).sum := by
  induction rows generalizing acc with
  | nil => simp
  | cons r rest ih =>
    rw [List.foldl_cons, ih, findGrouped_insertGrouped]
    by_cases hr : r.district_name = k
    · cases hacc : findGrouped acc k with
      | some v => simp [optMeasure, hf, List.filter_cons, hr]; try ring
      | none => simp [optMeasure, hf, List.filter_cons, hr]; try ring
    · simp [hr, List.filter_cons]

theorem groupRows_isSome (rows : List NormalizedRecord) (k : String) :
    (findGrouped (groupRows rows) k).isSome =
      rows.any (fun r => decide (r.district_name = k)) := by
  rw [groupRows, foldl_insertGrouped_isSome]
  simp [findGrouped]

theorem groupRows_measure (f : NormalizedRecord → ℚ)
    (hf : ∀ a b, f (addMeasures a b) = f a + f b)
    (rows : List NormalizedRecord) (k : String) :
    optMeasure f (findGrouped (groupRows rows) k) =
      ((rows.filter (fun r => decide (r.district_name = k))).map f).sum := by
  rw [groupRows, foldl_insertGrouped_measure f hf]
  simp [findGrouped, optMeasure]

theorem validRows_filter_key (stateName : String) (rows : List JsonVal) (k : String)
    (hk : k ≠ "") :
    (validRows stateName rows).filter (fun r => decide (r.district_name = k)) =
      (rows.map (normalizeRow stateName)).filter (fun r => decide (r.district_name = k)) := by
  unfold validRows
  rw [List.filter_filter]
  apply List.filter_congr
  intro r _
  by_cases h : r.district_name = k <;> simp [h, hk]

theorem mem_validRows_key_ne (stateName : String) (rows : List JsonVal)
    (r : NormalizedRecord) (hr : r ∈ validRows stateName rows) : r.district_name ≠ "" := by
  have := (List.mem_filter.mp hr).2
  simpa using this

theorem findGrouped_groupedArray_key_ne (stateName : String) (rows : List JsonVal)
    (k : String) (v : NormalizedRecord)
    (h : findGrouped (groupedArray stateName rows) k = some v) : k ≠ "" := by
  have hs : (findGrouped (groupedArray stateName rows) k).isSome = true := by
    rw [h]; rfl
  rw [groupedArray, groupRows_isSome] at hs
  obtain ⟨r, hr, hrk⟩ := List.any_eq_true.mp hs
  have hk : r.district_name = k := of_decide_eq_true hrk
  exact hk ▸ mem_validRows_key_ne stateName rows r hr

theorem groupedArray_measure (f : NormalizedRecord → ℚ)
    (hf : ∀ a b, f (addMeasures a b) = f a + f b)
    (stateName : String) (rows : List JsonVal) (k : String) (v : NormalizedRecord)
    (h : findGrouped (groupedArray stateName rows) k = some v) :
    f v = (((rows.map (normalizeRow stateName)).filter
        (fun r => decide (r.district_name = k))).map f).sum := by
  have hk : k ≠ "" := findGrouped_groupedArray_key_ne stateName rows k v h
  have hm := groupRows_measure f hf (validRows stateName rows) k
  rw [← groupedArray, h] at hm
  rw [validRows_filter_key stateName rows k hk] at hm
  simpa [optMeasure] using hm

theorem findGrouped_groupedArray_eq_none_iff (stateName : String) (rows : List JsonVal)
    (k : String) (hk : k ≠ "") :
    findGrouped (groupedArray stateName rows) k = none ↔
      (rows.map (normalizeRow stateName)).filter (fun r => decide (r.district_name = k)) = [] := by
  rw [← validRows_filter_key stateName rows k hk, ← Option.not_isSome_iff_eq_none,
    groupedArray, groupRows_isSome]
  simp [List.any_eq_true, List.filter_eq_nil_iff]

theorem findGrouped_groupedArray_empty_key (stateName : String) (rows : List JsonVal) :
    findGrouped (groupedArray stateName rows) "" = none := by
  rw [← Option.not_isSome_iff_eq_none, groupedArray, groupRows_isSome]
  intro h
  obtain ⟨r, hr, hrk⟩ := List.any_eq_true.mp h
  exact mem_validRows_key_ne stateName rows r hr (of_decide_eq_true hrk)

/-- First raw row of the grouping scenario of the specification. -/
def chennaiRow1 : JsonVal :=
  .obj [("district_name", .str "Chennai"), ("Total_Exp", .str "1,000")]

/-- Second raw row of the grouping scenario of the specification. -/
def chennaiRow2 : JsonVal :=
  .obj [("district_name", .str "chennai"), ("Total_Exp", .str "500")]

/-- The raw row list of the grouping scenario. -/
def chennaiRows : List JsonVal := [chennaiRow1, chennaiRow2]

/-- C1: aggregation groups the normalized rows by the trimmed-and-uppercased
district name, drops every row whose trimmed district name is empty (no
group has the empty key, and a group exists for a key exactly when some
normalized row carries it), and sums the seven numeric measures per group;
in particular the two "Chennai"/"chennai" raw rows produce exactly one
aggregate, with key "CHENNAI" and summed Total_Exp 1500. -/
theorem C1_aggregation_groups_and_sums :
    (∀ (stateName : String) (rows : List JsonVal) (k : String) (v : NormalizedRecord),
      findGrouped (groupedArray stateName rows) k = some v →
        v.district_name = k ∧ k ≠ "" ∧
        v.Approved_Labour_Budget = (((rows.map (normalizeRow stateName)).filter
          (fun r => decide (r.district_name = k))).map
          (fun r => r.Approved_Labour_Budget)).sum ∧
        v.Average_Wage_rate_per_day_per_person =
          (((rows.map (normalizeRow stateName)).filter
          (fun r => decide (r.district_name = k))).map
          (fun r => r.Average_Wage_rate_per_day_per_person)).sum ∧
        v.Average_days_of_employment_provided_per_Household =
          (((rows.map (normalizeRow stateName)).filter
          (fun r => decide (r.district_name = k))).map
          (fun r => r.Average_days_of_employment_provided_per_Household)).sum ∧
        v.Total_Households_Worked = (((rows.map (normalizeRow stateName)).filter
          (fun r => decide (r.district_name = k))).map
          (fun r => r.Total_Households_Worked)).sum ∧
        v.Total_Individuals_Worked = (((rows.map (normalizeRow stateName)).filter
          (fun r => decide (r.district_name = k))).map
          (fun r => r.Total_Individuals_Worked)).sum ∧
        v.Total_Exp = (((rows.map (normalizeRow stateName)).filter
          (fun r => decide (r.district_name = k))).map (fun r => r.Total_Exp)).sum ∧
        v.Wages = (((rows.map (normalizeRow stateName)).filter
          (fun r => decide (r.district_name = k))).map (fun r => r.Wages)).sum) ∧
    (∀ (stateName : String) (rows : List JsonVal) (k : String), k ≠ "" →
      (findGrouped (groupedArray stateName rows) k = none ↔
        (rows.map (normalizeRow stateName)).filter
          (fun r => decide (r.district_name = k)) = [])) ∧
    (∀ (stateName : String) (rows : List JsonVal),
      findGrouped (groupedArray stateName rows) "" = none) ∧
    (∃ v, groupedArray "TAMIL NADU" chennaiRows = [v] ∧
      v.district_name = "CHENNAI" ∧ v.Total_Exp = 1500) := by
  refine ⟨?_, ?_, ?_, ?_⟩
  · intro stateName rows k v h
    have h' : (groupedArray stateName rows).find?
        (fun r => decide (r.district_name = k)) = some v := h
    have hp := List.find?_some h'
    refine ⟨of_decide_eq_true hp,
      findGrouped_groupedArray_key_ne stateName rows k v h,
      groupedArray_measure _ (fun a b => rfl) stateName rows k v h,
      groupedArray_measure _ (fun a b => rfl) stateName rows k v h,
      groupedArray_measure _ (fun a b => rfl) stateName rows k v h,
      groupedArray_measure _ (fun a b => rfl) stateName rows k v h,
      groupedArray_measure _ (fun a b => rfl) stateName rows k v h,
      groupedArray_measure _ (fun a b => rfl) stateName rows k v h,
      groupedArray_measure _ (fun a b => rfl) stateName rows k v h⟩
  · exact findGrouped_groupedArray_eq_none_iff
  · exact findGrouped_groupedArray_empty_key
  · refine ⟨addMeasures (normalizeRow "TAMIL NADU" chennaiRow1)
      (normalizeRow "TAMIL NADU" chennaiRow2), rfl, by decide, ?_⟩
    have h1 : (normalizeRow "TAMIL NADU" chennaiRow1).Total_Exp = 1000 := by decide
    have h2 : (normalizeRow "TAMIL NADU" chennaiRow2).Total_Exp = 500 := by decide
    have hadd : (addMeasures (normalizeRow "TAMIL NADU" chennaiRow1)
        (normalizeRow "TAMIL NADU" chennaiRow2)).Total_Exp =
        (normalizeRow "TAMIL NADU" chennaiRow1).Total_Exp +
          (normalizeRow "TAMIL NADU" chennaiRow2).Total_Exp := rfl
    rw [hadd, h1, h2]
    norm_num

/-- Witness for C1: the Chennai scenario rows instantiate both grouping
clauses. -/
theorem C1_aggregation_groups_and_sums_witness :
    (addMeasures (normalizeRow "TAMIL NADU" chennaiRow1)
        (normalizeRow "TAMIL NADU" chennaiRow2)).district_name = "CHENNAI" ∧
      (findGrouped (groupedArray "TAMIL NADU" chennaiRows) "XYZ" = none ↔
        (chennaiRows.map (normalizeRow "TAMIL NADU")).filter
          (fun r => decide (r.district_name = "XYZ")) = []) :=
  ⟨(C1_aggregation_groups_and_sums.1 "TAMIL NADU" chennaiRows "CHENNAI"
      (addMeasures (normalizeRow "TAMIL NADU" chennaiRow1)
        (normalizeRow "TAMIL NADU" chennaiRow2)) rfl).1,
    C1_aggregation_groups_and_sums.2.1 "TAMIL NADU" chennaiRows "XYZ" (by decide)⟩

theorem toNumber_num (q : ℚ) : toNumber (.num q) = q := rfl

/-- C3: the numeric normalizer is total: null and undefined map to 0, a
number is returned unchanged, and every other value is stringified,
comma-stripped, trimmed and parsed as a decimal number, with 0 returned
when the parse fails (the NaN case); concrete instances included. -/
theorem C3_toNumber_total_contract :
    toNumber .jnull = 0 ∧ toNumber .undefined = 0 ∧
    (∀ q : ℚ, toNumber (.num q) = q) ∧
    (∀ v : JsonVal, (∀ q, v ≠ .num q) → v ≠ .jnull → v ≠ .undefined →
      ((∀ q, jsParseNumber (jsTrim (stripCommas (jsToString v))) = some q →
        toNumber v = q) ∧
       (jsParseNumber (jsTrim (stripCommas (jsToString v))) = none → toNumber v = 0))) ∧
    toNumber (.str "12,345") = 12345 ∧ toNumber (.str "N/A") = 0 := by
  refine ⟨rfl, rfl, toNumber_num, ?_, by decide, by decide⟩
  intro v hnum hnull hundefined
  constructor
  · intro q hq
    cases v with
    | jnull => exact absurd rfl hnull
    | undefined => exact absurd rfl hundefined
    | num q' => exact absurd rfl (hnum q')
    | str s => simp [toNumber, hq]
    | bool b => simp [toNumber, hq]
    | arr xs => simp [toNumber, hq]
    | obj fs => simp [toNumber, hq]
  · intro hq
    cases v with
    | jnull => exact absurd rfl hnull
    | undefined => exact absurd rfl hundefined
    | num q' => exact absurd rfl (hnum q')
    | str s => simp [toNumber, hq]
    | bool b => simp [toNumber, hq]
    | arr xs => simp [toNumber, hq]
    | obj fs => simp [toNumber, hq]

/-- Witness for C3: the parse-success clause at "12,345" and the
parse-failure clause at "N/A". -/
theorem C3_toNumber_total_contract_witness :
    toNumber (.str "12,345") = 12345 ∧ toNumber (.str "N/A") = 0 :=
  ⟨(C3_toNumber_total_contract.2.2.2.1 (.str "12,345") (fun _ h => nomatch h)
      (fun h => nomatch h) (fun h => nomatch h)).1 12345 (by decide),
    (C3_toNumber_total_contract.2.2.2.1 (.str "N/A") (fun _ h => nomatch h)
      (fun h => nomatch h) (fun h => nomatch h)).2 (by decide)⟩

/-- C4: the pipeline output is sorted by total expenditure in descending
order: every adjacent pair satisfies
`aggregates[i].Total_Exp >= aggregates[i+1].Total_Exp`. -/
theorem C4_sorted_by_total_exp_descending :
    ∀ (stateName districtFilter : String) (rows : List JsonVal) (i : ℕ)
      (h : i + 1 < (aggregatePipeline stateName districtFilter rows).length),
      ((aggregatePipeline stateName districtFilter rows).get ⟨i + 1, h⟩).Total_Exp ≤
        ((aggregatePipeline stateName districtFilter rows).get
          ⟨i, Nat.lt_of_succ_lt h⟩).Total_Exp := by
  intro stateName districtFilter rows i h
  have hs := @List.sorted_mergeSort NormalizedRecord
    (fun a b : NormalizedRecord => decide (b.Total_Exp ≤ a.Total_Exp))
    (fun a b c hab hbc =>
      decide_eq_true (le_trans (of_decide_eq_true hbc) (of_decide_eq_true hab)))
    (fun a b => by
      rcases le_total a.Total_Exp b.Total_Exp with hle | hle <;> simp [hle])
    (districtFiltered stateName districtFilter rows)
  have hp := List.pairwise_iff_getElem.mp hs i (i + 1)
    (Nat.lt_of_succ_lt h) h (Nat.lt_succ_self i)
  simpa [aggregatePipeline] using of_decide_eq_true hp

/-- Rows used to instantiate the sorting and insight claims: two
districts with different total expenditure. -/
def sortRows : List JsonVal :=
  [.obj [("district_name", .str "Ariyalur"), ("Total_Exp", .num 10)],
   .obj [("district_name", .str "Salem"), ("Total_Exp", .num 20)]]

theorem sortRows_pipeline_length :
    (aggregatePipeline "TAMIL NADU" "" sortRows).length = 2 := by
  rw [aggregatePipeline, List.length_mergeSort]
  decide

/-- Witness for C4 at the two-district row list. -/
theorem C4_sorted_by_total_exp_descending_witness :
    ((aggregatePipeline "TAMIL NADU" "" sortRows).get
        ⟨1, by rw [sortRows_pipeline_length]; omega⟩).Total_Exp ≤
      ((aggregatePipeline "TAMIL NADU" "" sortRows).get
        ⟨0, by rw [sortRows_pipeline_length]; omega⟩).Total_Exp :=
  C4_sorted_by_total_exp_descending "TAMIL NADU" "" sortRows 0
    (by rw [sortRows_pipeline_length]; omega)

/-- C5: the insight computation returns the sum of the households-worked
measure, the display name of the first aggregate as topDistrict, the
display name of the last as lowDistrict, and the "N/A" sentinel for both
on an empty sequence. -/
theorem C5_insights_totals_and_extremes :
    ∀ (arr : List NormalizedRecord),
      (computeInsights arr).totalHouseholds =
        (arr.map (fun x => x.Total_Households_Worked)).sum ∧
      (arr = [] → (computeInsights arr).topDistrict = "N/A" ∧
        (computeInsights arr).lowDistrict = "N/A") ∧
      (∀ h : arr ≠ [],
        (computeInsights arr).topDistrict = (arr.head h).district_display ∧
        (computeInsights arr).lowDistrict = (arr.getLast h).district_display) := by
  intro arr
  refine ⟨by simp [computeInsights, toNumber_num], ?_, ?_⟩
  · rintro rfl
    exact ⟨rfl, rfl⟩
  · intro h
    constructor
    · cases arr with
      | nil => exact absurd rfl h
      | cons x xs => rfl
    · show (match arr.getLast? with
        | none => "N/A"
        | some x => x.district_display) = (arr.getLast h).district_display
      rw [List.getLast?_eq_getLast arr h]

/-- Witness for C5: the empty sequence and a concrete one-aggregate
sequence. -/
theorem C5_insights_totals_and_extremes_witness :
    ((computeInsights []).topDistrict = "N/A" ∧
      (computeInsights []).lowDistrict = "N/A") ∧
    (computeInsights [normalizeRow "TAMIL NADU" chennaiRow1]).topDistrict =
      (([normalizeRow "TAMIL NADU" chennaiRow1].head (by simp)).district_display) :=
  ⟨(C5_insights_totals_and_extremes []).2.1 rfl,
    ((C5_insights_totals_and_extremes [normalizeRow "TAMIL NADU" chennaiRow1]).2.2
      (by simp)).1⟩

/-- C6: average households is the rounded quotient of total households by
the number of aggregates when the sequence is non-empty, and 0 on the
empty sequence (the division branch is never taken there). -/
theorem C6_avg_households_division_guard :
    ∀ (arr : List NormalizedRecord),
      (arr = [] → (computeInsights arr).avgHouseholds = 0) ∧
      (arr ≠ [] →
        (computeInsights arr).avgHouseholds =
          (jsRound ((computeInsights arr).totalHouseholds / arr.length) : ℚ)) := by
  intro arr
  constructor
  · rintro rfl
    rfl
  · intro h
    have hl : arr.length ≠ 0 := by simpa [List.length_eq_zero] using h
    simp [computeInsights, hl]

/-- Witness for C6: the empty sequence and a concrete one-aggregate
sequence. -/
theorem C6_avg_households_division_guard_witness :
    (computeInsights []).avgHouseholds = 0 ∧
      (computeInsights [normalizeRow "TAMIL NADU" chennaiRow1]).avgHouseholds =
        (jsRound ((computeInsights [normalizeRow "TAMIL NADU" chennaiRow1]).totalHouseholds /
          ([normalizeRow "TAMIL NADU" chennaiRow1] : List NormalizedRecord).length) : ℚ) :=
  ⟨(C6_avg_households_division_guard []).1 rfl,
    (C6_avg_households_division_guard [normalizeRow "TAMIL NADU" chennaiRow1]).2 (by simp)⟩

theorem allYearsRows_go (backend : Backend) (stateName districtOverride : String)
    (l : List String) (acc : List JsonVal) :
    l.foldl (fun acc y =>
        match fetchForYear backend stateName districtOverride y with
        | .ok rows => acc ++ rowsToAppend rows
        | .error _ => acc) acc =
      acc ++ (l.map (fun y =>
        match fetchForYear backend stateName districtOverride y with
        | .ok rows => rowsToAppend rows
        | .error _ => [])).flatten := by
  induction l generalizing acc with
  | nil => simp
  | cons y ys ih =>
    rw [List.foldl_cons]
    cases hy : fetchForYear backend stateName districtOverride y with
    | ok rows => simp [hy, ih, List.append_assoc]
    | error e => simp [hy, ih]

/-- Backend of the one-failed-year scenario: the 2022-2023 request
rejects, every other request succeeds with a single row tagged with the
requested year. -/
def failYearBackend : Backend := fun q =>
  if q.fin_year = some "2022-2023" then .error "network error"
  else .ok { ok := true, body := .ok (.arr [.str (q.fin_year.getD "none")]) }

/-- C2: in all-years mode one request is issued per concrete year of the
fixed seven-year list, and the result is the concatenation, in
year-iteration order, of the row lists of the successful years, a failed
year contributing nothing; with one of seven years failing, exactly the
six successful years' rows remain, in order. -/
theorem C2_all_years_partial_concat :
    (∀ (backend : Backend) (stateName districtOverride : String),
      allYearsRows backend stateName districtOverride =
        ((YEARS.filter (fun y => y ≠ "All")).map (fun y =>
          match fetchForYear backend stateName districtOverride y with
          | .ok rows => rowsToAppend rows
          | .error _ => [])).flatten) ∧
    YEARS.filter (fun y => y ≠ "All") =
      ["2024-2025", "2023-2024", "2022-2023", "2021-2022",
       "2020-2021", "2019-2020", "2018-2019"] ∧
    allYearsRows failYearBackend "TAMIL NADU" "" =
      [.str "2024-2025", .str "2023-2024", .str "2021-2022",
       .str "2020-2021", .str "2019-2020", .str "2018-2019"] := by
  refine ⟨?_, by decide, rfl⟩
  intro backend stateName districtOverride
  rw [allYearsRows, allYearsRows_go]
  simp

/-- C9: on a successful response the per-year fetch helper returns a bare
row sequence for both body shapes: a bare array, or an object wrapping
the array under the `data` key (also when that array is empty). -/
theorem C9_body_shape_normalization :
    ∀ (backend : Backend) (stateName districtOverride fin_year : String)
      (res : HttpResponse),
      backend (buildQuery stateName districtOverride fin_year) = .ok res →
      res.ok = true →
      (∀ xs : List JsonVal, res.body = .ok (.arr xs) →
        fetchForYear backend stateName districtOverride fin_year = .ok (.arr xs)) ∧
      (∀ (fields : List (String × JsonVal)) (xs : List JsonVal),
        res.body = .ok (.obj fields) → fields.lookup "data" = some (.arr xs) →
        fetchForYear backend stateName districtOverride fin_year = .ok (.arr xs)) := by
  intro backend stateName districtOverride fin_year res hb hok
  constructor
  · intro xs hbody
    simp [fetchForYear, hb, hok, hbody, jsGet, jsOr, truthy]
  · intro fields xs hbody hlookup
    simp [fetchForYear, hb, hok, hbody, jsGet, hlookup, jsOr, truthy]

/-- Backend answering every request with an object wrapping an empty row
array under the `data` key. -/
def wrapBackend : Backend :=
  fun _ => .ok { ok := true, body := .ok (.obj [("data", .arr [])]) }

/-- Witness for C9: the wrapped-empty-array shape yields the bare empty
sequence. -/
theorem C9_body_shape_normalization_witness :
    fetchForYear wrapBackend "TAMIL NADU" "" "2024-2025" = .ok (.arr []) :=
  (C9_body_shape_normalization wrapBackend "TAMIL NADU" "" "2024-2025"
      { ok := true, body := .ok (.obj [("data", .arr [])]) } rfl rfl).2
    [("data", .arr [])] [] rfl rfl

/-- The initial component state of App.jsx (lines 38-54). -/
def initialState : AppState :=
  { data := []
    rawRecords := []
    insights :=
      { totalHouseholds := 0, totalPersondays := 0, totalExpenditure := 0,
        avgHouseholds := 0, topDistrict := "N/A", lowDistrict := "N/A" }
    loading := false }

/-- C8: in single-year mode a non-ok status makes the per-year fetch
throw, any such failure reaches the top-level handler which leaves the
displayed data, raw records and insights unchanged, and the loading flag
is cleared on success and on failure alike. -/
theorem C8_single_year_failure_atomicity :
    ∀ (backend : Backend)
      (stateName yearOverride districtFilter districtOverride : String)
      (st : AppState), yearOverride ≠ "All" →
      ((∀ res : HttpResponse,
          backend (buildQuery stateName districtOverride yearOverride) = .ok res →
          res.ok = false →
          ∃ e, fetchForYear backend stateName districtOverride yearOverride = .error e) ∧
       (∀ e, fetchForYear backend stateName districtOverride yearOverride = .error e →
          fetchDataCycle backend stateName yearOverride districtFilter districtOverride st =
            { st with loading := false }) ∧
       (fetchDataCycle backend stateName yearOverride districtFilter districtOverride
          st).loading = false) := by
  intro backend stateName yearOverride districtFilter districtOverride st hyear
  refine ⟨?_, ?_, ?_⟩
  · intro res hb hok
    exact ⟨"Fetch failed", by simp [fetchForYear, hb, hok]⟩
  · intro e he
    simp [fetchDataCycle, fetchDataResult, hyear, he, Except.map]
  · cases hr : fetchDataResult backend stateName yearOverride districtFilter districtOverride
      with
    | ok v =>
      obtain ⟨raw, fin, ins⟩ := v
      simp [fetchDataCycle, hr]
    | error e => simp [fetchDataCycle, hr]

/-- Backend whose every request rejects. -/
def errBackend : Backend := fun _ => .error "network down"

/-- Backend whose every request resolves with a non-ok HTTP status. -/
def notOkBackend : Backend := fun _ => .ok { ok := false, body := .ok (.arr []) }

/-- Witness for C8: a rejected single-year fetch leaves the state intact
apart from the cleared loading flag, and a non-ok status throws. -/
theorem C8_single_year_failure_atomicity_witness :
    (∃ e, fetchForYear notOkBackend "TAMIL NADU" "" "2024-2025" = .error e) ∧
    fetchDataCycle errBackend "TAMIL NADU" "2024-2025" "" ""
        { initialState with loading := true } =
      { initialState with loading := false } ∧
    (fetchDataCycle errBackend "TAMIL NADU" "2024-2025" "" ""
        { initialState with loading := true }).loading = false :=
  ⟨(C8_single_year_failure_atomicity notOkBackend "TAMIL NADU" "2024-2025" "" ""
      { initialState with loading := true } (by decide)).1
      { ok := false, body := .ok (.arr []) } rfl rfl,
    (C8_single_year_failure_atomicity errBackend "TAMIL NADU" "2024-2025" "" ""
      { initialState with loading := true } (by decide)).2.1 "network down" rfl,
    (C8_single_year_failure_atomicity errBackend "TAMIL NADU" "2024-2025" "" ""
      { initialState with loading := true } (by decide)).2.2⟩

/-- C10: on every successful fetch-and-aggregate cycle the insight
summary's totalPersondays field is the constant 0, whatever the input
rows contained. -/
theorem C10_total_persondays_constant_zero :
    (∀ arr : List NormalizedRecord, (computeInsights arr).totalPersondays = 0) ∧
    (∀ (backend : Backend)
        (stateName yearOverride districtFilter districtOverride : String)
        (raw : List JsonVal) (fin : List NormalizedRecord) (ins : InsightSummary),
      fetchDataResult backend stateName yearOverride districtFilter districtOverride =
        .ok (raw, fin, ins) → ins.totalPersondays = 0) := by
  refine ⟨fun arr => rfl, ?_⟩
  intro backend stateName yearOverride districtFilter districtOverride raw fin ins h
  rw [fetchDataResult] at h
  split at h
  · exact absurd h (by simp)
  · simp only [Except.ok.injEq, Prod.mk.injEq] at h
    obtain ⟨-, -, h3⟩ := h
    rw [← h3]
    rfl

/-- Witness for C10: a successful (all-years) cycle against a failing
network still produces insights with totalPersondays 0. -/
theorem C10_total_persondays_constant_zero_witness :
    (computeInsights (aggregatePipeline "TAMIL NADU" ""
      (allYearsRows errBackend "TAMIL NADU" ""))).totalPersondays = 0 :=
  C10_total_persondays_constant_zero.2 errBackend "TAMIL NADU" "All" "" ""
    (allYearsRows errBackend "TAMIL NADU" "")
    (aggregatePipeline "TAMIL NADU" "" (allYearsRows errBackend "TAMIL NADU" ""))
    (computeInsights (aggregatePipeline "TAMIL NADU" ""
      (allYearsRows errBackend "TAMIL NADU" ""))) rfl
